import Mathlib

/-!
Shallow embedding of the techsiro price-monitor server (`src/server.js`) and
proofs about its numeral normalizer, price extractor and REST handlers.

The source corpus contains two revisions of `server.js`.  The price extractor
is specified as a two-tier strategy: Tier 1 is the structural paragraph scan of
the later revision's `scrapePrice` (lines 247-305), Tier 2 is the generic
selector fallback ("Method 2") of the earlier revision's `scrapePrice`
(lines 50-70); the two are composed in that priority order, with the later
revision's final separator strip (line 299) applied to the result of either
tier.  Machine integers are modelled as `Nat` (all quantities in scope are
non-negative and far below 2^53, where JavaScript arithmetic is exact);
JavaScript `NaN` and `undefined` are modelled as `Option.none`.
-/

namespace Techsiro

/-! ## Numeral normalizer -/

/-- ASCII digit test: `c` is between `'0'` and `'9'` (the regex class `[0-9]`
and the JavaScript comparison `char >= '0' && char <= '9'`). -/
def isAsciiDigit (c : Char) : Bool := 48 ≤ c.toNat && c.toNat ≤ 57

/-- Character of a single decimal digit (meaningful for `d < 10`). -/
def digitToChar (d : Nat) : Char := Char.ofNat (48 + d)

/-- Decimal digits of `n`, least significant first; the extra `fuel` argument
only bounds the recursion depth (`n ≤ fuel` suffices for full extraction). -/
def decimalDigitsRev : Nat → Nat → List Nat
  | 0, _ => []
  | fuel + 1, n => if n = 0 then [] else n % 10 :: decimalDigitsRev fuel (n / 10)

/-- Model of JavaScript `num.toString()` on a non-negative integer: its base-10
decimal representation. -/
def natToString (n : Nat) : String :=
  if n = 0 then "0" else ⟨((decimalDigitsRev n n).map digitToChar).reverse⟩

/-- Effect on an all-digit string of the source regex replace
`numStr.replace(/\B(?=(\d\x7b3\x7d)+(?!\d))/g, '٬')` (server.js line 332):
the Persian thousands mark U+066C is inserted before every character whose
index `i` is interior (`i ≠ 0`) and whose distance to the end of the string is
a multiple of 3. -/
def insertThousandsSeps (cs : List Char) : List Char :=
  (cs.enum.map fun p =>
    if p.1 ≠ 0 ∧ (cs.length - p.1) % 3 = 0 then ['٬', p.2] else [p.2]).flatten

/-- Per-character branch of `toPersianNumber`'s final map (server.js
lines 335-340): an ASCII digit is replaced by the Persian digit at the same
index of `persianDigits`; every other character passes through. -/
def pdChar : Char → Char
  | '0' => '۰'
  | '1' => '۱'
  | '2' => '۲'
  | '3' => '۳'
  | '4' => '۴'
  | '5' => '۵'
  | '6' => '۶'
  | '7' => '۷'
  | '8' => '۸'
  | '9' => '۹'
  | c => c

/-- `toPersianNumber` (server.js lines 327-341): format the integer in base 10,
insert the Persian thousands mark every 3 digits from the right, then map every
ASCII digit to its Persian equivalent. -/
def toPersianNumber (num : Nat) : String :=
  ⟨(insertThousandsSeps (natToString num).data).map pdChar⟩

/-- Combined per-character effect of the twenty sequential global replaces in
`toEnglishNumber` (server.js lines 313-318): each Persian digit U+06F0-U+06F9
and each Arabic-Indic digit U+0660-U+0669 maps to its ASCII equivalent, all
other characters are unchanged.  The sequential replaces are equivalent to one
simultaneous character map because every replacement output (an ASCII digit) is
not an input of any later replacement. -/
def engChar : Char → Char
  | '۰' => '0'
  | '۱' => '1'
  | '۲' => '2'
  | '۳' => '3'
  | '۴' => '4'
  | '۵' => '5'
  | '۶' => '6'
  | '۷' => '7'
  | '۸' => '8'
  | '۹' => '9'
  | '٠' => '0'
  | '١' => '1'
  | '٢' => '2'
  | '٣' => '3'
  | '٤' => '4'
  | '٥' => '5'
  | '٦' => '6'
  | '٧' => '7'
  | '٨' => '8'
  | '٩' => '9'
  | c => c

/-- `toEnglishNumber` (server.js lines 308-324): map Persian/Arabic digits to
ASCII, then strip every character that is not an ASCII digit
(`result.replace(/[^0-9]/g, '')`). -/
def toEnglishNumber (s : String) : String :=
  ⟨(s.data.map engChar).filter isAsciiDigit⟩

/-- Base-10 value of a list of ASCII digit characters (most significant
first). -/
def digitsVal (l : List Char) : Nat :=
  l.foldl (fun a c => 10 * a + (c.toNat - 48)) 0

/-- Canonical-integer conversion (spec 4.1): the source expression
`parseInt(toEnglishNumber(x))` (server.js line 283).  `toEnglishNumber` yields
a pure ASCII digit string, on which `parseInt` returns its base-10 value, or
`NaN` (modelled `none`) when the residual digit string is empty. -/
def toCanonicalInteger (s : String) : Option Nat :=
  if (toEnglishNumber s).data.isEmpty then none
  else some (digitsVal (toEnglishNumber s).data)

/-! ## Price extractor -/

/-- JavaScript `\s` / string-trim whitespace set. -/
def isJsSpace (c : Char) : Bool :=
  c == ' ' || c == '\t' || c == '\n' || c == '\r' || c.toNat == 11 ||
  c.toNat == 12 || c.toNat == 0xa0 || c.toNat == 0x1680 ||
  (0x2000 ≤ c.toNat && c.toNat ≤ 0x200a) || c.toNat == 0x2028 ||
  c.toNat == 0x2029 || c.toNat == 0x202f || c.toNat == 0x205f ||
  c.toNat == 0x3000 || c.toNat == 0xfeff

/-- JavaScript `String.prototype.trim()`: strip leading and trailing
whitespace. -/
def jsTrim (s : String) : String :=
  ⟨((s.data.dropWhile isJsSpace).reverse.dropWhile isJsSpace).reverse⟩

/-- Contiguous-sublist test on character lists (JavaScript
`String.prototype.includes`). -/
def subOccurs (sub : List Char) : List Char → Bool
  | [] => sub.isEmpty
  | c :: t => sub.isPrefixOf (c :: t) || subOccurs sub t

/-- JavaScript `s.includes(sub)`. -/
def containsStr (s sub : String) : Bool := subOccurs sub.data s.data

/-- Character class `[۰-۹0-9٬,]` of the price regex (server.js lines 280, 38,
63): Persian digits U+06F0-U+06F9, ASCII digits, the Persian thousands mark
U+066C, and the ASCII comma. -/
def isPriceChar (c : Char) : Bool :=
  (0x6f0 ≤ c.toNat && c.toNat ≤ 0x6f9) || isAsciiDigit c || c == '٬' || c == ','

/-- Attempt of the regex `([۰-۹0-9٬,]+)\s*تومان` at the start of `l`,
returning the group-1 capture.  The greedy maximal runs are exact here: price
characters, whitespace and the letters of `تومان` are pairwise disjoint
character sets, so no backtracking to a shorter run can ever turn a failure
into a match. -/
def matchPriceAt (l : List Char) : Option (List Char) :=
  let run := l.takeWhile isPriceChar
  if run.isEmpty then none
  else if "تومان".data.isPrefixOf ((l.dropWhile isPriceChar).dropWhile isJsSpace)
  then some run
  else none

/-- Leftmost match of the price regex: JavaScript `text.match(...)` tries each
start position from the left and returns the first successful capture. -/
def firstPriceMatch : List Char → Option (List Char)
  | [] => none
  | c :: t =>
    match matchPriceAt (c :: t) with
    | some r => some r
    | none => firstPriceMatch t

/-- `text.match(/([۰-۹0-9٬,]+)\s*تومان/)`, reduced to its group-1 capture
(`priceMatch[1]` in the source); `none` models a null match result. -/
def priceCapture (s : String) : Option String :=
  (firstPriceMatch s.data).map fun l => ⟨l⟩

/-- One node of the parsed HTML document, as the scraper observes it through
cheerio: tag name (lowercased), `class` attribute (empty string when absent,
matching `$elem.attr('class') || ''`), `id` attribute (empty when absent), and
text content. -/
structure Element where
  tag : String
  className : String
  idAttr : String
  text : String
deriving DecidableEq

/-- A parsed document: its elements in document order. -/
abbrev Document := List Element

/-- Body of the Tier 1 `$('p').each` callback (server.js lines 263-292) for a
single element: `some priceText` exactly when the callback accepts the element
(sets `price` and returns `false` to stop the iteration), `none` when it skips.
Non-`p` elements are never visited by `$('p')`, hence yield `none`. -/
def tier1Hit (e : Element) : Option String :=
  if e.tag ≠ "p" then none
  else if containsStr e.className "line-through" then none
  else if containsStr (jsTrim e.text) "سود" || containsStr (jsTrim e.text) "تخفیف"
      || containsStr (jsTrim e.text) "discount" then none
  else if containsStr e.className "font-bold" && containsStr (jsTrim e.text) "تومان" then
    match priceCapture (jsTrim e.text) with
    | some priceText =>
      match toCanonicalInteger priceText with
      | some priceNum => if 1000 < priceNum then some priceText else none
      | none => none
    | none => none
  else none

/-- Tier 1 structural scan (server.js lines 263-292): iterate the `p` elements
in document order; the first accepted candidate stops the scan. -/
def scanTier1 : Document → Option String
  | [] => none
  | e :: rest =>
    match tier1Hit e with
    | some p => some p
    | none => scanTier1 rest

/-- Splits a character list at whitespace, dropping empty pieces; `acc` holds
the characters of the current token in reverse. -/
def tokensAux : List Char → List Char → List String
  | [], acc => if acc.isEmpty then [] else [⟨acc.reverse⟩]
  | c :: t, acc =>
    if isJsSpace c then
      if acc.isEmpty then tokensAux t [] else (⟨acc.reverse⟩ : String) :: tokensAux t []
    else tokensAux t (c :: acc)

/-- Whitespace-separated tokens of a `class` attribute value, as CSS class
selectors match them. -/
def classTokens (s : String) : List String := tokensAux s.data []

/-- The four selector shapes used by the Tier 2 fallback list. -/
inductive Selector where
  | classEq (token : String)
  | idEq (ident : String)
  | classSub (sub : String)
  | idSub (sub : String)

/-- Whether an element matches a selector: `.x` matches a class token, `#x`
matches the id, `[class*="x"]` / `[id*="x"]` match by attribute-value
substring. -/
def matchesSelector : Selector → Element → Bool
  | .classEq tok, e => (classTokens e.className).contains tok
  | .idEq i, e => e.idAttr == i
  | .classSub sub, e => containsStr e.className sub
  | .idSub sub, e => containsStr e.idAttr sub

/-- The fixed Tier 2 priority list `priceSelectors` (server.js lines 51-57):
`.product-price`, `.price`, `#product-price`, `[class*="price"]`,
`[id*="price"]`. -/
def priceSelectors : List Selector :=
  [.classEq "product-price", .classEq "price", .idEq "product-price",
   .classSub "price", .idSub "price"]

/-- Tier 2 fallback scan (server.js lines 59-69): for each selector in priority
order, take the first matching element (`$(selector).first()`); if its trimmed
text yields a regex capture, that capture is the result (`break`), otherwise
try the next selector. -/
def scanTier2 (doc : Document) : List Selector → Option String
  | [] => none
  | sel :: rest =>
    match doc.find? (matchesSelector sel) with
    | some e =>
      match priceCapture (jsTrim e.text) with
      | some cap => some cap
      | none => scanTier2 doc rest
    | none => scanTier2 doc rest

/-- Output normalization `price.replace(/[٬,]/g, '')` (server.js line 299):
remove every Persian thousands mark and ASCII comma. -/
def stripSeps (s : String) : String :=
  ⟨s.data.filter fun c => !(c == '٬' || c == ',')⟩

/-- The two-tier price extractor (spec 4.2): Tier 1 structural scan, then —
only when Tier 1 found nothing — the Tier 2 selector fallback; a `null` price
when both fail, and the separator strip applied to a successful result.  A
capture is never the empty string (the regex group is one-or-more characters),
so the JavaScript falsiness test `!price` coincides with the null test. -/
def extractPrice (doc : Document) : Option String :=
  match scanTier1 doc with
  | some price => some (stripSeps price)
  | none =>
    match scanTier2 doc priceSelectors with
    | some price => some (stripSeps price)
    | none => none

/-! ## REST handlers -/

/-- A persisted product record. -/
structure Product where
  name : String
  url : String
deriving DecidableEq

/-- JavaScript `parseInt(s)` restricted to base-10 inputs: skip leading
whitespace, read an optional sign and then the longest prefix of ASCII digits;
`NaN` (modelled `none`) when that prefix is empty.  (The hexadecimal `0x`
prefix of `parseInt` is not modelled; no claim exercises it.) -/
def jsParseInt (s : String) : Option Int :=
  match s.data.dropWhile isJsSpace with
  | '-' :: rest =>
    let ds := rest.takeWhile isAsciiDigit
    if ds.isEmpty then none else some (-(digitsVal ds : Int))
  | '+' :: rest =>
    let ds := rest.takeWhile isAsciiDigit
    if ds.isEmpty then none else some ((digitsVal ds : Int))
  | l =>
    let ds := l.takeWhile isAsciiDigit
    if ds.isEmpty then none else some ((digitsVal ds : Int))

/-- JavaScript `<` on a possibly-NaN left operand: every comparison with `NaN`
is false. -/
def jsLt (a : Option Int) (b : Int) : Bool :=
  match a with
  | none => false
  | some x => decide (x < b)

/-- JavaScript `>=` on a possibly-NaN left operand: every comparison with `NaN`
is false. -/
def jsGe (a : Option Int) (b : Int) : Bool :=
  match a with
  | none => false
  | some x => decide (b ≤ x)

/-- JavaScript array indexing `products[index]`: `undefined` (modelled `none`)
for `NaN` or an out-of-range index. -/
def jsIndex (products : List Product) (i : Option Int) : Option Product :=
  match i with
  | none => none
  | some x =>
    if h : 0 ≤ x ∧ x.toNat < products.length then some (products.get ⟨x.toNat, h.2⟩)
    else none

/-- Response status of `GET /api/price/:index` (server.js lines 356-379):
parse the index, return 404 when `index < 0 || index >= products.length`;
otherwise read `products[index]` — when that is `undefined` (NaN index), the
access `product.url` throws a `TypeError` which the surrounding `catch` maps
to a 500 response; a real product proceeds to the scrape and the 200
`res.json` response (the network fetch is out of scope). -/
def priceHandler (products : List Product) (param : String) : Nat :=
  let index := jsParseInt param
  if jsLt index 0 || jsGe index products.length then 404
  else
    match jsIndex products index with
    | some _ => 200
    | none => 500

/-- `Array.prototype.splice` start-index coercion (`ToIntegerOrInfinity`
followed by clamping): `NaN` coerces to 0, negative values count from the end,
positive values clamp to the length. -/
def spliceStart (i : Option Int) (len : Nat) : Nat :=
  match i with
  | none => 0
  | some x => if x < 0 then len - (-x).toNat else min x.toNat len

/-- Response status and resulting list of `DELETE /api/products/:index`
(server.js lines 435-454): parse the index, 404 when
`index < 0 || index >= products.length`; otherwise `products.splice(index, 1)`
removes one element at the coerced start index (for a `NaN` index this is
index 0) and the handler responds 200 — `splice` never throws, even on `NaN`
or an empty list. -/
def deleteHandler (products : List Product) (param : String) : Nat × List Product :=
  let index := jsParseInt param
  if jsLt index 0 || jsGe index products.length then (404, products)
  else
    let s := spliceStart index products.length
    (200, products.take s ++ products.drop (s + 1))

/-- Handler of `POST /api/products` (server.js lines 407-432) on the current
persisted list and a request body `\x7b name, url \x7d`: a missing (`none`) or
empty field is falsy and yields 400; a url without the substring
`techsiro.com` yields 400; otherwise the record is appended and the handler
responds 200. -/
def postProduct (products : List Product) (name url : Option String) :
    Nat × List Product :=
  match name, url with
  | some n, some u =>
    if n.data.isEmpty || u.data.isEmpty then (400, products)
    else if !containsStr u "techsiro.com" then (400, products)
    else (200, products ++ [⟨n, u⟩])
  | _, _ => (400, products)

/-- First occurrence of `sub` in `l`, returning the suffix that follows it. -/
def afterSub (sub : List Char) : List Char → Option (List Char)
  | [] => if sub.isEmpty then some [] else none
  | c :: t =>
    if sub.isPrefixOf (c :: t) then some ((c :: t).drop sub.length)
    else afterSub sub t

/-- Host component of a URL: the characters after the first `://` (or from the
start when there is none) up to the first `/`, `:`, `?` or `#`. -/
def hostOf (url : String) : String :=
  ⟨((afterSub "://".data url.data).getD url.data).takeWhile
    fun c => !(c == '/' || c == ':' || c == '?' || c == '#')⟩

/-- Follows the spec's words, for comparison with the source's substring test:
a URL "belongs to the target domain" `d` when its host is `d` itself or a
subdomain of `d` (ends in `"." ++ d`). -/
def specUrlBelongsToDomain (url domain : String) : Bool :=
  hostOf url == domain || ("." ++ domain).data.isSuffixOf (hostOf url).data

/-! ## Concrete fixtures -/

/-- Bold, non-struck paragraph carrying the live price (spec 8 scenario). -/
def bold63 : Element := ⟨"p", "font-bold text-2xl", "", "۶۳٬۶۰۰٬۰۰۰ تومان"⟩

/-- Struck-through paragraph carrying the superseded price. -/
def struck70 : Element := ⟨"p", "line-through text-gray-400", "", "۷۰٬۰۰۰٬۰۰۰ تومان"⟩

/-- Second bold currency-bearing paragraph, later in document order. -/
def bold65 : Element := ⟨"p", "font-bold", "", "۶۵٬۰۰۰٬۰۰۰ تومان"⟩

/-- Bold currency-bearing paragraph whose captured numeral converts to 500. -/
def elem500 : Element := ⟨"p", "font-bold", "", "۵۰۰ تومان"⟩

/-- Paragraph whose only currency-bearing text also contains the savings word
`سود`. -/
def discountElem : Element := ⟨"p", "font-bold", "", "سود شما ۲٬۰۰۰٬۰۰۰ تومان"⟩

/-- Paragraph whose captured numeral is a bare separator: canonical conversion
leaves no digits. -/
def malformedElem : Element := ⟨"p", "font-bold", "", "٬ تومان"⟩

/-- Document with no paragraph elements and one element of class exactly
`price` (spec 8 Tier 2 scenario). -/
def priceClassDoc : Document := [⟨"div", "price", "", "۱٬۲۳۴٬۵۶۷ تومان"⟩]

/-- Two persisted products, for the handler counterexamples. -/
def prodA : Product := ⟨"alpha", "https://techsiro.com/product/a"⟩

/-- Second persisted product. -/
def prodB : Product := ⟨"beta", "https://techsiro.com/product/b"⟩

/-! ## Scan structure lemmas -/

lemma scanTier1_cons_some (e : Element) (rest : Document) (p : String)
    (h : tier1Hit e = some p) : scanTier1 (e :: rest) = some p := by
  simp [scanTier1, h]

lemma scanTier1_cons_none (e : Element) (rest : Document)
    (h : tier1Hit e = none) : scanTier1 (e :: rest) = scanTier1 rest := by
  simp [scanTier1, h]

lemma tier1Hit_of_lineThrough (e : Element)
    (h : containsStr e.className "line-through" = true) : tier1Hit e = none := by
  simp [tier1Hit, h]

lemma tier1Hit_of_discount (e : Element)
    (h : containsStr (jsTrim e.text) "سود" = true ∨
      containsStr (jsTrim e.text) "تخفیف" = true ∨
      containsStr (jsTrim e.text) "discount" = true) : tier1Hit e = none := by
  rcases h with h | h | h <;> simp [tier1Hit, h]

lemma tier1Hit_of_small (e : Element) (cap : String) (m : Nat)
    (hcap : priceCapture (jsTrim e.text) = some cap)
    (hval : toCanonicalInteger cap = some m) (hm : m ≤ 1000) :
    tier1Hit e = none := by
  unfold tier1Hit
  split_ifs with h1 h2 h3 h4 <;> try rfl
  simp only [hcap, hval]
  rw [if_neg (by omega)]

lemma tier1Hit_of_noNumber (e : Element) (cap : String)
    (hcap : priceCapture (jsTrim e.text) = some cap)
    (hval : toCanonicalInteger cap = none) : tier1Hit e = none := by
  unfold tier1Hit
  split_ifs with h1 h2 h3 h4 <;> try rfl
  simp only [hcap, hval]

lemma scanTier1_append_none (pre rest : Document)
    (h : ∀ x ∈ pre, tier1Hit x = none) :
    scanTier1 (pre ++ rest) = scanTier1 rest := by
  induction pre with
  | nil => rfl
  | cons e tl ih =>
    rw [List.cons_append, scanTier1_cons_none e (tl ++ rest) (h e (by simp))]
    exact ih fun x hx => h x (by simp [hx])

lemma extractPrice_of_tier1 (doc : Document) (p : String)
    (h : scanTier1 doc = some p) : extractPrice doc = some (stripSeps p) := by
  unfold extractPrice
  rw [h]

/-! ## Round-trip lemmas for the numeral normalizer -/

lemma decimalDigitsRev_eq_digits (fuel n : Nat) (h : n ≤ fuel) :
    decimalDigitsRev fuel n = Nat.digits 10 n := by
  induction fuel generalizing n with
  | zero =>
    have hn : n = 0 := Nat.le_zero.mp h
    subst hn
    simp [decimalDigitsRev]
  | succ fuel ih =>
    by_cases hn : n = 0
    · subst hn
      simp [decimalDigitsRev]
    · rw [decimalDigitsRev, if_neg hn,
        Nat.digits_def' (b := 10) (by norm_num) (Nat.pos_of_ne_zero hn)]
      have hdiv : n / 10 ≤ fuel := by
        have := Nat.div_lt_self (Nat.pos_of_ne_zero hn) (by norm_num : 1 < 10)
        omega
      rw [ih (n / 10) hdiv]

lemma digit_chunk : ∀ d : Nat, d < 10 →
    engChar (pdChar (digitToChar d)) = digitToChar d ∧
    isAsciiDigit (digitToChar d) = true ∧ (digitToChar d).toNat - 48 = d := by
  decide

lemma restore_aux (t : List Char) (k len : Nat)
    (h : ∀ c ∈ t, ∃ d, d < 10 ∧ c = digitToChar d) :
    ((((t.enumFrom k).map fun p =>
        if p.1 ≠ 0 ∧ (len - p.1) % 3 = 0 then ['٬', p.2] else [p.2]).flatten.map
      pdChar).map engChar).filter isAsciiDigit = t := by
  induction t generalizing k with
  | nil => rfl
  | cons c tl ih =>
    obtain ⟨d, hd, rfl⟩ := h c (List.mem_cons_self c tl)
    have htl : ∀ x ∈ tl, ∃ e, e < 10 ∧ x = digitToChar e :=
      fun x hx => h x (List.mem_cons_of_mem _ hx)
    have h1 := (digit_chunk d hd).1
    have h2 := (digit_chunk d hd).2.1
    have hms : pdChar '٬' = '٬' := rfl
    have hme : engChar '٬' = '٬' := rfl
    have hmf : isAsciiDigit '٬' = false := rfl
    have hstep : List.enumFrom k (digitToChar d :: tl) =
        (k, digitToChar d) :: List.enumFrom (k + 1) tl := rfl
    rw [hstep, List.map_cons, List.flatten_cons, List.map_append, List.map_append,
      List.filter_append, ih (k + 1) htl]
    by_cases hc : k ≠ 0 ∧ (len - k) % 3 = 0
    · rw [if_pos hc]
      simp only [List.map_cons, List.map_nil, hms, hme, h1, List.filter_cons, hmf, h2,
        List.filter_nil]
      rfl
    · rw [if_neg hc]
      simp only [List.map_cons, List.map_nil, h1, List.filter_cons, h2, List.filter_nil]
      rfl

lemma natToString_chars (n : Nat) :
    ∀ c ∈ (natToString n).data, ∃ d, d < 10 ∧ c = digitToChar d := by
  by_cases hn : n = 0
  · subst hn
    intro c hc
    refine ⟨0, by norm_num, ?_⟩
    have : c = '0' := by
      simpa [natToString] using hc
    simp [this]
    rfl
  · intro c hc
    rw [natToString, if_neg hn, decimalDigitsRev_eq_digits n n le_rfl] at hc
    rw [List.mem_reverse, List.mem_map] at hc
    obtain ⟨d, hd, rfl⟩ := hc
    exact ⟨d, Nat.digits_lt_base (by norm_num) hd, rfl⟩

lemma toEnglishNumber_toPersianNumber (n : Nat) :
    (toEnglishNumber (toPersianNumber n)).data = (natToString n).data := by
  exact restore_aux ((natToString n).data) 0 ((natToString n).data.length)
    (natToString_chars n)

lemma foldr_digitChars (L : List Nat) (hL : ∀ d ∈ L, d < 10) :
    L.foldr (fun d y => 10 * y + ((digitToChar d).toNat - 48)) 0 =
      Nat.ofDigits 10 L := by
  induction L with
  | nil => rfl
  | cons d tl ih =>
    have hd : d < 10 := hL d (List.mem_cons_self d tl)
    have htl : ∀ x ∈ tl, x < 10 := fun x hx => hL x (List.mem_cons_of_mem _ hx)
    rw [List.foldr_cons, ih htl, (digit_chunk d hd).2.2, Nat.ofDigits_cons]
    ring

lemma digitsVal_natToString (n : Nat) : digitsVal (natToString n).data = n := by
  by_cases hn : n = 0
  · subst hn
    decide
  · rw [natToString, if_neg hn, decimalDigitsRev_eq_digits n n le_rfl]
    show (((Nat.digits 10 n).map digitToChar).reverse.foldl
      (fun a c => 10 * a + (c.toNat - 48)) 0) = n
    rw [List.foldl_reverse, List.foldr_map]
    rw [foldr_digitChars (Nat.digits 10 n)
      (fun d hd => Nat.digits_lt_base (by norm_num) hd)]
    exact Nat.ofDigits_digits 10 n

lemma natToString_not_empty (n : Nat) : (natToString n).data.isEmpty = false := by
  by_cases hn : n = 0
  · subst hn
    rfl
  · rw [natToString, if_neg hn, decimalDigitsRev_eq_digits n n le_rfl]
    have hne : Nat.digits 10 n ≠ [] := Nat.digits_ne_nil_iff_ne_zero.mpr hn
    cases hdig : Nat.digits 10 n with
    | nil => exact absurd hdig hne
    | cons d tl =>
      cases htl : (List.map digitToChar (d :: tl)).reverse with
      | nil => simp at htl
      | cons x xs => simp [htl]

/-! ## Claims -/

/-- C1: on every document where the Tier 1 structural scan accepts no
candidate, `extractPrice` attempts the Tier 2 fallback scan over the fixed
priority list of generic price selectors and returns the first
currency-anchored capture it finds (normalized by the separator strip); only
when no fallback selector yields a match does extraction return the absence
marker `none`. -/
theorem claim1_tier2_fallback (doc : Document) (h : scanTier1 doc = none) :
    extractPrice doc = Option.map stripSeps (scanTier2 doc priceSelectors) ∧
    (scanTier2 doc priceSelectors = none → extractPrice doc = none) := by
  constructor
  · unfold extractPrice
    rw [h]
    cases h2 : scanTier2 doc priceSelectors <;> simp
  · intro h2
    unfold extractPrice
    rw [h, h2]

/-- Witness for C1: the spec's Tier 2 scenario — no paragraph elements, one
element of class exactly `price` containing `۱٬۲۳۴٬۵۶۷ تومان` — falls through
to Tier 2 and yields `۱۲۳۴۵۶۷`. -/
theorem claim1_witness :
    scanTier1 priceClassDoc = none ∧
    extractPrice priceClassDoc =
      Option.map stripSeps (scanTier2 priceClassDoc priceSelectors) ∧
    extractPrice priceClassDoc = some "۱۲۳۴۵۶۷" :=
  ⟨by decide, (claim1_tier2_fallback priceClassDoc (by decide)).1, by decide⟩

/-- C2: an element whose class attribute contains the `line-through` marker is
skipped and scanning continues; in a document whose only non-struck candidate
is the bold element containing `۶۳٬۶۰۰٬۰۰۰ تومان` (with the struck
`۷۰٬۰۰۰٬۰۰۰ تومان` element before or after it), `extractPrice` returns the
bold element's numeral, whose canonical integer is 63600000 — never
70000000. -/
theorem claim2_struck_skipped (pres post : Document)
    (h : ∀ e ∈ pres, containsStr e.className "line-through" = true) :
    (∀ (e : Element) (rest : Document),
      containsStr e.className "line-through" = true →
      scanTier1 (e :: rest) = scanTier1 rest) ∧
    extractPrice (pres ++ bold63 :: post) = some "۶۳۶۰۰۰۰۰" ∧
    toCanonicalInteger "۶۳۶۰۰۰۰۰" = some 63600000 ∧ (63600000 : Nat) ≠ 70000000 := by
  refine ⟨fun e rest he => scanTier1_cons_none e rest (tier1Hit_of_lineThrough e he),
    ?_, by decide, by decide⟩
  have h1 : scanTier1 (pres ++ bold63 :: post) = some "۶۳٬۶۰۰٬۰۰۰" := by
    rw [scanTier1_append_none pres (bold63 :: post)
      (fun x hx => tier1Hit_of_lineThrough x (h x hx))]
    exact scanTier1_cons_some bold63 post "۶۳٬۶۰۰٬۰۰۰" (by decide)
  rw [extractPrice_of_tier1 _ _ h1]
  decide

/-- Witness for C2: the two-element document in both orders returns the bold
value `۶۳۶۰۰۰۰۰`. -/
theorem claim2_witness :
    extractPrice [struck70, bold63] = some "۶۳۶۰۰۰۰۰" ∧
    extractPrice [bold63, struck70] = some "۶۳۶۰۰۰۰۰" :=
  ⟨(claim2_struck_skipped [struck70] [] (by decide)).2.1,
   (claim2_struck_skipped [] [struck70] (by decide)).2.1⟩

/-- C3: round trip of the numeral normalizer — for every non-negative integer
representable as a JavaScript safe integer, formatting with grouped Persian
digits (`toPersianNumber`) and converting back through the canonical-integer
conversion (`toEnglishNumber` followed by base-10 parsing) returns the same
integer.  (The embedding in fact proves this for every `Nat`; the safe-integer
bound matches the claim's wording and is where JavaScript arithmetic itself is
exact.) -/
theorem claim3_roundtrip (n : Nat) (h : n < 2 ^ 53) :
    toCanonicalInteger (toPersianNumber n) = some n := by
  unfold toCanonicalInteger
  rw [toEnglishNumber_toPersianNumber, natToString_not_empty, digitsVal_natToString]
  rfl

/-- Witness for C3: the round trip at the representative value 63600000 (whose
grouped form is `۶۳٬۶۰۰٬۰۰۰`). -/
theorem claim3_witness :
    63600000 < 2 ^ 53 ∧
    toPersianNumber 63600000 = "۶۳٬۶۰۰٬۰۰۰" ∧
    toCanonicalInteger (toPersianNumber 63600000) = some 63600000 :=
  ⟨by decide, by decide, claim3_roundtrip 63600000 (by decide)⟩

/-- C4: first-match-wins — when every element before `e` yields no Tier 1 hit
and `e` satisfies every Tier 1 filter with capture `cap`, `extractPrice`
returns `cap` (normalized) and the elements after `e` are never examined: the
result is the same for every continuation of the document. -/
theorem claim4_first_match_wins (pre post : Document) (e : Element) (cap : String)
    (hpre : ∀ x ∈ pre, tier1Hit x = none) (he : tier1Hit e = some cap) :
    extractPrice (pre ++ e :: post) = some (stripSeps cap) ∧
    ∀ post2 : Document,
      extractPrice (pre ++ e :: post) = extractPrice (pre ++ e :: post2) := by
  have key : ∀ q : Document, extractPrice (pre ++ e :: q) = some (stripSeps cap) := by
    intro q
    exact extractPrice_of_tier1 _ _
      (by rw [scanTier1_append_none pre (e :: q) hpre]
          exact scanTier1_cons_some e q cap he)
  exact ⟨key post, fun post2 => (key post).trans (key post2).symm⟩

/-- Witness for C4: with a rejected small-price element first and a second
qualifying bold element after it, the first qualifying element `bold63` wins
and the later `bold65` is ignored. -/
theorem claim4_witness :
    extractPrice [elem500, bold63, bold65] = some (stripSeps "۶۳٬۶۰۰٬۰۰۰") ∧
    stripSeps "۶۳٬۶۰۰٬۰۰۰" = "۶۳۶۰۰۰۰۰" ∧
    extractPrice [elem500, bold63, bold65] = extractPrice [elem500, bold63] :=
  ⟨(claim4_first_match_wins [elem500] [bold65] bold63 "۶۳٬۶۰۰٬۰۰۰"
      (by decide) (by decide)).1,
   by decide,
   (claim4_first_match_wins [elem500] [bold65] bold63 "۶۳٬۶۰۰٬۰۰۰"
      (by decide) (by decide)).2 []⟩

/-- C5: a Tier 1 candidate whose captured numeral converts to a canonical
integer at most 1000 is rejected — the element yields no hit and scanning
continues with the rest of the document; the concrete `۵۰۰ تومان` document
falls through Tier 2 (no selector matches) and returns absent. -/
theorem claim5_small_rejected (e : Element) (cap : String) (m : Nat)
    (hcap : priceCapture (jsTrim e.text) = some cap)
    (hval : toCanonicalInteger cap = some m) (hm : m ≤ 1000) :
    tier1Hit e = none ∧
    (∀ rest : Document, scanTier1 (e :: rest) = scanTier1 rest) ∧
    extractPrice [elem500] = none := by
  have h0 : tier1Hit e = none := tier1Hit_of_small e cap m hcap hval hm
  exact ⟨h0, fun rest => scanTier1_cons_none e rest h0, by decide⟩

/-- Witness for C5: the bold element `۵۰۰ تومان` captures `۵۰۰`, converts to
500 ≤ 1000, is rejected, and its document extracts to absent. -/
theorem claim5_witness :
    priceCapture (jsTrim elem500.text) = some "۵۰۰" ∧
    tier1Hit elem500 = none ∧ extractPrice [elem500] = none :=
  ⟨by decide,
   (claim5_small_rejected elem500 "۵۰۰" 500 (by decide) (by decide) (by decide)).1,
   (claim5_small_rejected elem500 "۵۰۰" 500 (by decide) (by decide) (by decide)).2.2⟩

/-- C6: an element whose text contains discount/savings vocabulary (`سود`,
`تخفیف` or `discount`) is rejected by Tier 1 before the bold/currency
acceptance test ever fires, whatever its class attribute; when the only
currency-bearing bold element is such an element and no fallback selector
matches, `extractPrice` returns the absence marker. -/
theorem claim6_discount_rejected (e : Element)
    (hd : containsStr (jsTrim e.text) "سود" = true ∨
      containsStr (jsTrim e.text) "تخفیف" = true ∨
      containsStr (jsTrim e.text) "discount" = true) :
    tier1Hit e = none ∧
    (∀ rest : Document, scanTier1 (e :: rest) = scanTier1 rest) ∧
    extractPrice [discountElem] = none := by
  have h0 : tier1Hit e = none := tier1Hit_of_discount e hd
  exact ⟨h0, fun rest => scanTier1_cons_none e rest h0, by decide⟩

/-- Witness for C6: the bold element `سود شما ۲٬۰۰۰٬۰۰۰ تومان` is rejected and
its document extracts to absent. -/
theorem claim6_witness :
    containsStr (jsTrim discountElem.text) "سود" = true ∧
    tier1Hit discountElem = none ∧ extractPrice [discountElem] = none :=
  ⟨by decide,
   (claim6_discount_rejected discountElem (Or.inl (by decide))).1,
   (claim6_discount_rejected discountElem (Or.inl (by decide))).2.2⟩

/-- C7: every successful extraction result is the raw capture of one of the
two tiers with every thousands separator (Persian mark `٬` and ASCII comma)
removed and nothing else changed — `stripSeps` only filters characters, so the
digit script is preserved — and the returned text contains no separator
character. -/
theorem claim7_separators_stripped (doc : Document) (s : String)
    (h : extractPrice doc = some s) :
    (∃ cap : String,
      (scanTier1 doc = some cap ∨
        (scanTier1 doc = none ∧ scanTier2 doc priceSelectors = some cap)) ∧
      s = stripSeps cap) ∧
    ∀ c ∈ s.data, c ≠ '٬' ∧ c ≠ ',' := by
  have hsep : ∀ cap : String, ∀ c ∈ (stripSeps cap).data, c ≠ '٬' ∧ c ≠ ',' := by
    intro cap c hc
    have h2 := (List.mem_filter.mp hc).2
    simp only [Bool.not_eq_true'] at h2
    constructor <;> intro heq <;> subst heq <;> simp at h2
  unfold extractPrice at h
  cases h1 : scanTier1 doc with
  | some p =>
    rw [h1] at h
    have hs : s = stripSeps p := by
      cases h
      rfl
    exact ⟨⟨p, Or.inl rfl, hs⟩, hs ▸ hsep p⟩
  | none =>
    rw [h1] at h
    cases h2 : scanTier2 doc priceSelectors with
    | some p =>
      rw [h2] at h
      have hs : s = stripSeps p := by
        cases h
        rfl
      exact ⟨⟨p, Or.inr ⟨rfl, rfl⟩, hs⟩, hs ▸ hsep p⟩
    | none =>
      rw [h2] at h
      cases h

/-- Witness for C7: the Tier 2 scenario returns `۱۲۳۴۵۶۷`, and every character
of that result is neither `٬` nor `,`. -/
theorem claim7_witness :
    extractPrice priceClassDoc = some "۱۲۳۴۵۶۷" ∧
    ∀ c ∈ ("۱۲۳۴۵۶۷" : String).data, c ≠ '٬' ∧ c ≠ ',' :=
  ⟨by decide,
   (claim7_separators_stripped priceClassDoc "۱۲۳۴۵۶۷" (by decide)).2⟩

/-- C8: extraction is a total function — the embedding returns the absence
marker `none` as a normal value in every failure mode, never an exception
(the source additionally wraps the scan in a catch-all returning `null`): the
empty document (the parse of empty or non-HTML input) yields `none`; a matched
numeral whose canonical conversion is empty (`NaN`) is treated exactly like a
non-matching element; and when neither tier finds anything the result is
`none`. -/
theorem claim8_absence_total (e : Element) (cap : String)
    (h1 : priceCapture (jsTrim e.text) = some cap)
    (h2 : toCanonicalInteger cap = none) :
    extractPrice ([] : Document) = none ∧ tier1Hit e = none ∧
    (∀ doc : Document, scanTier1 doc = none →
      scanTier2 doc priceSelectors = none → extractPrice doc = none) := by
  refine ⟨by decide, tier1Hit_of_noNumber e cap h1 h2, ?_⟩
  intro doc ha hb
  unfold extractPrice
  rw [ha, hb]

/-- Witness for C8: the bold element `٬ تومان` captures the bare separator
`٬`, whose canonical conversion is empty, and is treated as absent; the empty
document extracts to `none`. -/
theorem claim8_witness :
    priceCapture (jsTrim malformedElem.text) = some "٬" ∧
    toCanonicalInteger "٬" = none ∧
    tier1Hit malformedElem = none ∧
    extractPrice ([] : Document) = none ∧
    extractPrice [malformedElem] = none :=
  ⟨by decide, by decide,
   (claim8_absence_total malformedElem "٬" (by decide) (by decide)).2.1,
   (claim8_absence_total malformedElem "٬" (by decide) (by decide)).1,
   by decide⟩

/-- C9 counterexample: the handler's check is substring containment, not
domain membership.  The URL `https://techsiro.com.evil.example/item` does not
belong to the domain `techsiro.com` (its host is `techsiro.com.evil.example`),
yet it contains the substring `techsiro.com`, so the handler accepts the
request, responds success and appends the record — refuting the claim that
every request whose url is outside the target domain is rejected with 400. -/
theorem claim9_counterexample :
    specUrlBelongsToDomain "https://techsiro.com.evil.example/item" "techsiro.com" = false ∧
    containsStr "https://techsiro.com.evil.example/item" "techsiro.com" = true ∧
    postProduct [] (some "phone") (some "https://techsiro.com.evil.example/item") =
      (200, [⟨"phone", "https://techsiro.com.evil.example/item"⟩]) ∧
    (postProduct [] (some "phone")
      (some "https://techsiro.com.evil.example/item")).1 ≠ 400 := by
  decide

/-- C9 amended: `POST /api/products` rejects with 400 every request with a
missing or empty `name` or `url`, and every request whose `url` does not
contain the substring `techsiro.com`; exactly the requests passing both checks
append the record to the persisted list (and respond success). -/
theorem claim9_amended (ps : List Product) (n u : String)
    (hn : n.data.isEmpty = false) (hu : u.data.isEmpty = false) :
    postProduct ps none (some u) = (400, ps) ∧
    postProduct ps (some n) none = (400, ps) ∧
    postProduct ps (some "") (some u) = (400, ps) ∧
    postProduct ps (some n) (some "") = (400, ps) ∧
    (containsStr u "techsiro.com" = false → postProduct ps (some n) (some u) = (400, ps)) ∧
    (containsStr u "techsiro.com" = true →
      postProduct ps (some n) (some u) = (200, ps ++ [⟨n, u⟩])) := by
  refine ⟨rfl, rfl, rfl,
    by simp [postProduct, show ("" : String).data.isEmpty = true from rfl], ?_, ?_⟩ <;>
    intro hc <;> simp [postProduct, hn, hu, hc]

/-- Witness for C9 amended: a well-formed techsiro URL is appended; a foreign
URL without the substring is rejected. -/
theorem claim9_witness :
    postProduct [] (some "phone") (some "https://www.techsiro.com/p/1") =
      (200, [⟨"phone", "https://www.techsiro.com/p/1"⟩]) ∧
    postProduct [] (some "phone") (some "https://example.com/p/1") = (400, []) :=
  ⟨(claim9_amended [] "phone" "https://www.techsiro.com/p/1"
      (by decide) (by decide)).2.2.2.2.2 (by decide),
   (claim9_amended [] "phone" "https://example.com/p/1"
      (by decide) (by decide)).2.2.2.2.1 (by decide)⟩

/-- C10 counterexample: for a non-numeric index, `parseInt` yields `NaN` and
both bounds comparisons are false, so the 404 branch is skipped in both
handlers — but `DELETE /api/products/:index` does not respond 500 as the claim
states: `splice` coerces the `NaN` start index to 0, so the handler removes
the first product and responds success 200. -/
theorem claim10_counterexample :
    jsParseInt "abc" = none ∧
    deleteHandler [prodA, prodB] "abc" = (200, [prodB]) ∧
    (deleteHandler [prodA, prodB] "abc").1 ≠ 500 ∧
    (deleteHandler [prodA, prodB] "abc").1 ≠ 404 := by
  decide

/-- C10 amended: for every request whose index parameter does not parse as an
integer (`parseInt` yields `NaN`), both bounds comparisons are false and the
404 branch is skipped in both handlers; `GET /api/price/:index` then fails on
the undefined product and responds 500, while `DELETE /api/products/:index`
coerces the `NaN` splice index to 0, removes the first product when the list
is non-empty (leaving an empty list unchanged), and responds 200. -/
theorem claim10_amended (ps : List Product) (param : String)
    (h : jsParseInt param = none) :
    priceHandler ps param = 500 ∧
    (∀ (q : Product) (qs : List Product), deleteHandler (q :: qs) param = (200, qs)) ∧
    deleteHandler ([] : List Product) param = (200, []) := by
  refine ⟨?_, ?_, ?_⟩
  · unfold priceHandler
    rw [h]
    rfl
  · intro q qs
    unfold deleteHandler
    rw [h]
    rfl
  · unfold deleteHandler
    rw [h]
    rfl

/-- Witness for C10 amended: the index parameter `abc` yields 500 on the price
route and a success deletion of the first product on the delete route. -/
theorem claim10_witness :
    priceHandler [prodA] "abc" = 500 ∧
    deleteHandler [prodA, prodB] "abc" = (200, [prodB]) :=
  ⟨(claim10_amended [prodA] "abc" (by decide)).1,
   (claim10_amended [prodA] "abc" (by decide)).2.1 prodA [prodB]⟩

end Techsiro
